import Mathlib

/-!
Verification of the `NullEvaluator` component
(`src/code/src/evaluation/NullEvaluator.cpp` of the ml-rapids repository).

The C++ class `NullEvaluator` is a null-object implementation of the
`Evaluator` interface: it has no data members, its constructor and
destructor have empty bodies, `addResult` has the body `return;`,
`getMeasures` returns `nullptr`, and `toString` returns the string
literal consisting of one space.  The file also invokes the registration
macros `REGISTER_CLASS(NullEvaluator)` and
`REGISTER_COMMAND_LINE_PARAMETER(NullEvaluator, <schema string>)`.

The shallow embedding below mirrors this directly:
pointers that may be null become `Option`, the C++ object's (empty)
member state becomes a field-less structure, and each method becomes a
Lean function on that structure.
-/

namespace MLRapids

/-- External opaque type `Instance` (a single data point consumed by an
`Evaluator`).  Its definition is not part of this translation unit;
`NullEvaluator` only ever receives it by const reference and ignores it,
so an abstract token type with one `Nat` tag suffices for the embedding. -/
structure Instance where
  tag : Nat
deriving DecidableEq, Repr

/-- External opaque type `Measures` (the evaluation-result type).
`NullEvaluator` never constructs one, so an abstract token type with one
`Nat` tag suffices for the embedding. -/
structure Measures where
  tag : Nat
deriving DecidableEq, Repr

/-- The `NullEvaluator` class.  In the C++ source it declares no data
members, so its state is the empty record. -/
structure NullEvaluator where
deriving DecidableEq, Repr

/-- `NullEvaluator::NullEvaluator()`: the constructor body is empty; it
produces the (unique) empty-record state and initializes nothing. -/
def NullEvaluator.init : NullEvaluator := {}

/-- `NullEvaluator::~NullEvaluator()`: the destructor body is empty; it
releases nothing and returns nothing. -/
def NullEvaluator.destroy (_e : NullEvaluator) : Unit := ()

/-- `void NullEvaluator::addResult(const Instance&, double[])`:
the body is `return;`, so the member state is returned unchanged and the
arguments are ignored. -/
def NullEvaluator.addResult (e : NullEvaluator) (_inst : Instance)
    (_scores : List Float) : NullEvaluator := e

/-- `Measures* NullEvaluator::getMeasures()`: the body is
`return nullptr;`.  A possibly-null `Measures*` is embedded as
`Option Measures`, with `none` standing for the null pointer. -/
def NullEvaluator.getMeasures (_e : NullEvaluator) : Option Measures :=
  none

/-- `string NullEvaluator::toString()`: the body returns the literal
single-space string. -/
def NullEvaluator.toString (_e : NullEvaluator) : String := " "

/-- Feeding a whole sequence of `addResult` calls to an evaluator, in
order: `addResults e [(i1, s1), (i2, s2), ...]` is the state after
`e.addResult(i1, s1); e.addResult(i2, s2); ...`. -/
def NullEvaluator.addResults (e : NullEvaluator)
    (calls : List (Instance × List Float)) : NullEvaluator :=
  calls.foldl (fun acc c => acc.addResult c.1 c.2) e

/-- One call on the public interface of `NullEvaluator`, for reasoning
about sequences and interleavings of calls. -/
inductive EvalOp where
  | addResult (inst : Instance) (scores : List Float) : EvalOp
  | getMeasures : EvalOp
  | toString : EvalOp
deriving Repr

/-- The state reached after executing one `EvalOp` on a `NullEvaluator`. -/
def EvalOp.step (e : NullEvaluator) : EvalOp → NullEvaluator
  | .addResult inst scores => e.addResult inst scores
  | .getMeasures => e
  | .toString => e

/-- The state reached after executing a whole sequence of calls. -/
def EvalOp.run (e : NullEvaluator) (ops : List EvalOp) : NullEvaluator :=
  ops.foldl EvalOp.step e

/-- The registration key passed to `REGISTER_CLASS(NullEvaluator)`:
the class name as a string. -/
def registrationName : String := "NullEvaluator"

/-- First string literal of the schema argument of
`REGISTER_COMMAND_LINE_PARAMETER` in the source file. -/
def schemaLine1 : String := "\x7b\"type\":\"Evaluator\","

/-- Second string literal of the schema argument. -/
def schemaLine2 : String := "\"name\":\"NullEvaluator\","

/-- Third string literal of the schema argument. -/
def schemaLine3 : String := "\"parameter\":\x7b"

/-- Fourth string literal of the schema argument. -/
def schemaLine4 : String := "\"-f\":\"Frequency\""

/-- Fifth string literal of the schema argument. -/
def schemaLine5 : String := "\x7d\x7d"

/-- Sixth (empty) string literal of the schema argument. -/
def schemaLine6 : String := ""

/-- The schema string passed to
`REGISTER_COMMAND_LINE_PARAMETER(NullEvaluator, ...)`: C++ concatenates
the six adjacent string literals of the source into one string. -/
def registeredParameterSchema : String :=
  schemaLine1 ++ schemaLine2 ++ schemaLine3 ++ schemaLine4 ++ schemaLine5
    ++ schemaLine6

/-- Modelled from the spec: the registration macros `REGISTER_CLASS` and
`REGISTER_COMMAND_LINE_PARAMETER` are defined in the external framework
header `Common.h`, which is not part of the given source.  Per the spec,
they register the class with a global registry keyed by the class name
string, together with its command-line parameter schema string.  The
registry entry contributed by this translation unit is that single
key/schema pair. -/
def registry : List (String × String) :=
  [(registrationName, registeredParameterSchema)]

/-- Claim C1: for every `NullEvaluator` object and every sequence of prior
`addResult` calls, with any `Instance` values and score arrays,
`getMeasures()` returns the absent value (`none`): no `Measures` object is
produced. -/
theorem getMeasures_none_after_any_addResults (e : NullEvaluator)
    (calls : List (Instance × List Float)) :
    (e.addResults calls).getMeasures = none := rfl

/-- Claim C2: for every `NullEvaluator` object, regardless of any prior
calls to its other operations, `toString()` returns exactly the
single-space string. -/
theorem toString_always_single_space (e : NullEvaluator)
    (priorCalls : List EvalOp) :
    (EvalOp.run e priorCalls).toString = " " := rfl

/-- Claim C3: for every `Instance` value and every array of numeric
scores, `addResult` performs no state mutation: the object's state after
the call equals its state before the call. -/
theorem addResult_state_unchanged (e : NullEvaluator) (inst : Instance)
    (scores : List Float) :
    e.addResult inst scores = e := rfl

/-- Claim C4: every public operation of `NullEvaluator` is total and never
fails: for all inputs, `addResult`, `getMeasures` and `toString` each
terminate normally with a definite result (the unchanged state, `none`,
and the single-space string respectively), so no error branch is
reachable. -/
theorem all_operations_total (e : NullEvaluator) (inst : Instance)
    (scores : List Float) :
    e.addResult inst scores = e ∧
      e.getMeasures = none ∧
      e.toString = " " :=
  ⟨rfl, rfl, rfl⟩

/-- Claim C5: the concrete scenario — construct a `NullEvaluator`, call
`addResult` three times with arbitrary instances and score arrays, then
call `getMeasures()`: the result is absent; a subsequent `toString()`
returns the single-space string. -/
theorem scenario_three_addResults_then_queries :
    (((NullEvaluator.init.addResult ⟨0⟩ [0.5, 1.5]).addResult ⟨1⟩
          [2.5]).addResult ⟨2⟩ []).getMeasures = none ∧
      (((NullEvaluator.init.addResult ⟨0⟩ [0.5, 1.5]).addResult ⟨1⟩
          [2.5]).addResult ⟨2⟩ []).toString = " " :=
  ⟨rfl, rfl⟩

/-- Claim C6: a `NullEvaluator` has no internal state — the state type has
exactly one value, construction produces it, every operation preserves it,
and destruction yields nothing; so there is no state in which any
operation behaves differently. -/
theorem single_inert_state :
    (∀ e₁ e₂ : NullEvaluator, e₁ = e₂) ∧
      (∀ e : NullEvaluator, NullEvaluator.init = e) ∧
      (∀ (e : NullEvaluator) (op : EvalOp), EvalOp.step e op = e) ∧
      (∀ e : NullEvaluator, NullEvaluator.destroy e = ()) :=
  ⟨fun _ _ => rfl, fun _ => rfl,
    fun e op => by cases op <;> rfl, fun _ => rfl⟩

/-- Claim C7: the file registers the class under the exact name string
`NullEvaluator`, and the registered command-line parameter schema string
(the concatenation of the source's six adjacent string literals) is
exactly the JSON object declaring the single parameter `-f` named
`Frequency`. -/
theorem registration_name_and_schema :
    registry.lookup "NullEvaluator" = some registeredParameterSchema ∧
      registeredParameterSchema =
        "\x7b\"type\":\"Evaluator\",\"name\":\"NullEvaluator\",\"parameter\":\x7b\"-f\":\"Frequency\"\x7d\x7d" :=
  ⟨rfl, rfl⟩

/-- Claim C9: `getMeasures()` returns specifically the null pointer
(embedded as `none`), not a non-null pointer to an empty `Measures`
object: there is no `Measures` value the result points to, so a caller
dereferencing without a null check has no object to read. -/
theorem getMeasures_is_null_pointer (e : NullEvaluator) :
    e.getMeasures = none ∧
      e.getMeasures.isSome = false ∧
      ∀ m : Measures, e.getMeasures ≠ some m :=
  ⟨rfl, rfl, fun _ h => Option.noConfusion h⟩

/-- Claim C10: the constructor and destructor are both no-ops: the
constructor produces the unique member state, initializing nothing that
could distinguish one object from another, and the destructor releases
nothing and returns nothing. -/
theorem constructor_destructor_noop :
    (∀ e : NullEvaluator, NullEvaluator.init = e ∧
        NullEvaluator.destroy e = ()) :=
  fun _ => ⟨rfl, rfl⟩

end MLRapids
